import Mathlib

/-!
Shallow embedding of the `k8sforward` repository (Go) for checking its
specification: the settings validators (`validateNonEmptyString`,
`validateTCPPort`, `validateLocalAddress`), the `Settings` data model with
`Validate`/`prepare`, and the `Init`/`run` session logic of `k8forward.go`.

External collaborators (kubeconfig loader, cluster pod listing, the
port-forward library, the output stream) are modelled by an `Env` record
holding the outcome the outside world returns for each call the code makes,
and the code's observable actions are recorded as an ordered `Trace` of
events.  Go `error` values are modelled by `GoError`, which carries the
message and whether `errors.Is(err, context.Canceled)` holds.
-/

namespace K8sforward

/-- Model of a Go `error` value: its message together with whether
`errors.Is(err, context.Canceled)` holds for it. -/
structure GoError where
  msg : String
  canceled : Bool
deriving Repr, DecidableEq

/-- `fmt.Errorf` without a `%w` verb: a fresh error that wraps nothing,
so `errors.Is(·, context.Canceled)` is false for it. -/
def errorf (m : String) : GoError := ⟨m, false⟩

/-- `fmt.Errorf("<prefix>: %w", e)`: prepends message text and keeps the
`errors.Is` chain of the wrapped error. -/
def wrapf (pre : String) (e : GoError) : GoError := ⟨pre ++ e.msg, e.canceled⟩

/-! ### Model of the Go standard library pieces used by the validators -/

/-- Go's per-byte digit test in `strconv` (`'0' <= ch && ch <= '9'`). -/
def isDigitChar (c : Char) : Bool := 48 ≤ c.toNat && c.toNat ≤ 57

/-- Numeric value of a decimal digit character (`c - '0'`). -/
def charVal (c : Char) : Nat := c.toNat - 48

/-- Value accumulated by `strconv` over a big-endian run of decimal digits. -/
def decVal (cs : List Char) : Nat := cs.foldl (fun a c => a * 10 + charVal c) 0

/-- Parse an unsigned run of decimal digits; `none` unless the list is
non-empty and consists of digits only (Go `strconv` syntax error). -/
def parseDigits (cs : List Char) : Option Nat :=
  if cs.isEmpty then none
  else if cs.all isDigitChar then some (decVal cs) else none

/-- Split a character list at every occurrence of `sep`, keeping empty
segments, as Go `strings.Split` does for a one-character separator. -/
def splitOnChar (sep : Char) : List Char → List (List Char)
  | [] => [[]]
  | c :: cs =>
    if c = sep then [] :: splitOnChar sep cs
    else
      match splitOnChar sep cs with
      | [] => [[c]]
      | p :: ps => (c :: p) :: ps

/-- Model of Go `strings.Split(s, sep)` for a one-character separator:
every (possibly empty) segment between consecutive separators, so the
result always has one more segment than there are separators. -/
def goSplit (s : String) (sep : Char) : List String :=
  (splitOnChar sep s.toList).map List.asString

/-- Largest value of Go `int64` (and of `int` on a 64-bit platform). -/
def maxInt64 : Nat := 9223372036854775807

/-- Model of Go `strconv.Atoi` on a 64-bit platform: an optional single
leading sign followed by at least one decimal digit; `none` on a syntax
error or on 64-bit overflow (in which case the Go code sees `err != nil`). -/
def atoi (s : String) : Option Int :=
  match s.toList with
  | [] => none
  | c :: rest =>
    if c = '+' then
      (parseDigits rest).bind fun n =>
        if n ≤ maxInt64 then some (n : Int) else none
    else if c = '-' then
      (parseDigits rest).bind fun n =>
        if n ≤ maxInt64 + 1 then some (-(n : Int)) else none
    else
      (parseDigits (c :: rest)).bind fun n =>
        if n ≤ maxInt64 then some (n : Int) else none

/-- Model of Go `strconv.Itoa`: canonical decimal rendering of an integer. -/
def itoa (i : Int) : String :=
  if i < 0 then "-" ++ Nat.repr i.natAbs else Nat.repr i.natAbs

/-! ### The validators (`validate.go` / the validator file shown in the
repository documentation, which is the version `k8forward.go` builds on) -/

/-- `validateNonEmptyString` from the source. -/
def validateNonEmptyString (name value : String) : Option GoError :=
  if value = "" then some (errorf (name ++ " must be a non-empty string"))
  else none

/-- `validateTCPPort` from the source: non-empty, and `strconv.Atoi`
succeeds with a value from 0 to 65535. -/
def validateTCPPort (name portStr : String) : Option GoError :=
  match validateNonEmptyString name portStr with
  | some e => some e
  | none =>
    match atoi portStr with
    | some port =>
      if 0 ≤ port ∧ port ≤ 65535 then none
      else some (errorf (name ++ " must be an integer from 0 to 65535 but was \x27" ++ portStr ++ "\x27"))
    | none => some (errorf (name ++ " must be an integer from 0 to 65535 but was \x27" ++ portStr ++ "\x27"))

/-- `validateLocalAddress` from the source: non-empty, splitting on `:`
yields exactly two parts, a non-empty host and a valid TCP port; on success
returns the two parts. -/
def validateLocalAddress (localAddress : String) : Except GoError (List String) :=
  match validateNonEmptyString "local address" localAddress with
  | some e => .error e
  | none =>
    let addressParts := goSplit localAddress ':'
    if addressParts.length ≠ 2 then
      .error (errorf ("local address must be in host:port format but was \x27" ++ localAddress ++ "\x27"))
    else
      match validateNonEmptyString "local host" (addressParts.getD 0 "") with
      | some e => .error e
      | none =>
        match validateTCPPort "local port" (addressParts.getD 1 "") with
        | some e => .error e
        | none => .ok addressParts

/-! ### The session model (`k8forward.go`) -/

/-- An observable action of one session, in order of occurrence:
loading the kubeconfig, issuing the pod-listing call (with the selectors it
carries), writing a line to `Out`, invoking the forwarding collaborator,
and invoking the caller-supplied `CancelFn`. -/
inductive Event where
  | configLoaded
  | podsListed (labelSelector fieldSelector : String)
  | wrote (line : String)
  | forwardStarted
  | cancelCalled
deriving Repr, DecidableEq

/-- The ordered list of observable actions of one session. -/
abbrev Trace := List Event

/-- Does the event write a line to `Out`? -/
def Event.isWrote : Event → Bool
  | .wrote _ => true
  | _ => false

/-- Is the event a pod-listing call? -/
def Event.isListed : Event → Bool
  | .podsListed _ _ => true
  | _ => false

/-- The `Settings` struct of `k8forward.go`.  Channels, writers and the
cancel callback are modelled by presence flags (`CancelFn != nil` is all the
code ever asks of them; invoking `CancelFn` is an `Event`), and the
`portForwardOptions.PodName` field the code mutates is kept as `pfPodName`. -/
structure Settings where
  ContextName : String
  AppName : String
  LocalAddress : String
  RemotePort : String
  VersionName : String := ""
  KubeconfigPath : String := ""
  hasReadyChannel : Bool := false
  hasCancelFn : Bool := false
  hasOut : Bool := false
  hasErrOut : Bool := false
  localHost : String := ""
  localPort : String := ""
  «namespace» : String := ""
  pfPodName : String := ""
  validated : Bool := false
deriving Repr, DecidableEq

/-- The part of a loaded kubeconfig the code reads: the `Contexts` map,
as an association list from context name to that context's namespace. -/
structure ApiConfig where
  contexts : List (String × String)
deriving Repr, DecidableEq

/-- `apiConfig.Contexts[name]` lookup. -/
def ApiConfig.lookupContext (cfg : ApiConfig) (name : String) : Option String :=
  (cfg.contexts.find? (fun p => p.1 = name)).map Prod.snd

instance {ε α : Type} [DecidableEq ε] [DecidableEq α] : DecidableEq (Except ε α) := fun x y =>
  match x, y with
  | .ok a, .ok b => decidable_of_iff (a = b) (by simp)
  | .error a, .error b => decidable_of_iff (a = b) (by simp)
  | .ok _, .error _ => isFalse (by simp)
  | .error _, .ok _ => isFalse (by simp)

/-- The outside world for one session: the outcome of each call the code
makes to its collaborators (`none` meaning the call succeeds where only an
error can come back). -/
structure Env where
  home : Option String := none
  loadResult : Except GoError ApiConfig := .error (errorf "no such file")
  clientConfigErr : Option GoError := none
  newForConfigErr : Option GoError := none
  restClientForErr : Option GoError := none
  pfValidateErr : Option GoError := none
  listResult : Except GoError (List String) := .ok []
  fprintfErr : Option GoError := none
  forwardResult : Option GoError := none
deriving Repr, DecidableEq

/-- `Settings.prepare` from `k8forward.go`: load the kubeconfig, resolve
the named context to its namespace, build the REST client and the
port-forward options (with `PodName` set to `"placeholder"`), and mark the
settings validated. -/
def Settings.prepare (s : Settings) (env : Env) : Settings × Option GoError × Trace :=
  let tr : Trace := [.configLoaded]
  match env.loadResult with
  | .error e =>
    (s, some (wrapf ("error loading the k8s config from " ++ s.KubeconfigPath ++ ": ") e), tr)
  | .ok apiConfig =>
    match apiConfig.lookupContext s.ContextName with
    | none => (s, some (errorf ("unknown k8s context \x27" ++ s.ContextName ++ "\x27")), tr)
    | some k8sCtxNamespace =>
      let s := { s with «namespace» := k8sCtxNamespace }
      match env.clientConfigErr with
      | some e => (s, some (wrapf "error creating the k8s client REST config: " e), tr)
      | none =>
        match env.newForConfigErr with
        | some e => (s, some (wrapf "error creating k8s client set: " e), tr)
        | none =>
          match env.restClientForErr with
          | some e => (s, some (wrapf "error configuring REST client: " e), tr)
          | none =>
            let s := { s with pfPodName := "placeholder" }
            match env.pfValidateErr with
            | some e => (s, some (wrapf "error validating the port-forwarding options: " e), tr)
            | none => ({ s with validated := true }, none, tr)

/-- The field checks at the top of `Settings.Validate` (`k8forward.go`
lines 76–93): the four required strings, with `localHost`/`localPort`
derived from `LocalAddress` as soon as it passes (the settings are mutated
through a pointer, so the derived fields survive a later failure). -/
def validateChecks (s : Settings) : Settings × Option GoError :=
  match validateNonEmptyString "k8s context name" s.ContextName with
  | some e => (s, some e)
  | none =>
    match validateNonEmptyString "k8s app name" s.AppName with
    | some e => (s, some e)
    | none =>
      match validateLocalAddress s.LocalAddress with
      | .error e => (s, some e)
      | .ok addressParts =>
        let s := { s with
          localHost := addressParts.getD 0 "", localPort := addressParts.getD 1 "" }
        match validateTCPPort "remote TCP port" s.RemotePort with
        | some e => (s, some e)
        | none => (s, none)

/-- The `KubeconfigPath` defaulting in `Settings.Validate` (`k8forward.go`
lines 95–101): an explicit path is kept; otherwise `$HOME/.kube/config`,
failing when `HOME` is not set. -/
def resolveKubeconfigPath (s : Settings) (env : Env) : Except GoError Settings :=
  if s.KubeconfigPath = "" then
    match env.home with
    | none => .error (errorf "cannot resolve home directory")
    | some homeDir => .ok { s with KubeconfigPath := homeDir ++ "/.kube/config" }
  else .ok s

/-- `Settings.Validate` from `k8forward.go`: a no-op once validated;
otherwise check the four required strings, derive `localHost`/`localPort`,
default `KubeconfigPath` from `$HOME` and the output sinks, then `prepare`. -/
def Settings.Validate (s : Settings) (env : Env) : Settings × Option GoError × Trace :=
  if s.validated then (s, none, [])
  else
    match validateChecks s with
    | (s, some e) => (s, some e, [])
    | (s, none) =>
      match resolveKubeconfigPath s env with
      | .error e => (s, some e, [])
      | .ok s =>
        let s := { s with hasOut := true, hasErrOut := true }
        s.prepare env

/-- The `app=...` label selector `run` builds from the settings. -/
def labelSelectorOf (s : Settings) : String :=
  if s.VersionName = "" then "app=" ++ s.AppName
  else "app=" ++ s.AppName ++ ",version=" ++ s.VersionName

/-- The no-matching-pods message `run` builds from the settings. -/
def missingErrMsgOf (s : Settings) : String :=
  if s.VersionName = "" then
    "no running pods found for app \x27" ++ s.AppName ++ "\x27 in \x27" ++
      s.ContextName ++ "\x27 context"
  else
    "no running pods found for app \x27" ++ s.AppName ++ "\x27 version \x27" ++
      s.VersionName ++ "\x27 in \x27" ++ s.ContextName ++ "\x27 context"

/-- The status line `run` writes to `Out` before starting the forwarder
(`Starting port-forward from %s to %s:%s on %s\n`). -/
def statusLine (localAddress podName remotePort contextName : String) : String :=
  "Starting port-forward from " ++ localAddress ++ " to " ++ podName ++ ":" ++
    remotePort ++ " on " ++ contextName ++ "\n"

/-- `Settings.run` from `k8forward.go`: validate, list running pods by the
label selector, fail if none, pick the first, announce, then hand over to
the forwarding collaborator. -/
def Settings.run (s : Settings) (env : Env) : Settings × Option GoError × Trace :=
  match s.Validate env with
  | (s, some e, tr) => (s, some e, tr)
  | (s, none, tr) =>
    let tr := tr ++ [Event.podsListed (labelSelectorOf s) "status.phase=Running"]
    match env.listResult with
    | .error e => (s, some (wrapf "error listing pods: " e), tr)
    | .ok pods =>
      match pods with
      | [] => (s, some (errorf (missingErrMsgOf s)), tr)
      | podName :: _ =>
        let s := { s with pfPodName := podName }
        match env.fprintfErr with
        | some e => (s, some (wrapf "error writing to output stream: " e), tr)
        | none =>
          let tr := tr ++
            [Event.wrote (statusLine s.LocalAddress s.pfPodName s.RemotePort s.ContextName),
             Event.forwardStarted]
          match env.forwardResult with
          | some e =>
            (s, some (wrapf ("error port-forwarding from " ++ s.LocalAddress ++ " to " ++
              s.pfPodName ++ ":" ++ s.RemotePort ++ " on " ++ s.ContextName ++ ": ") e), tr)
          | none => (s, none, tr)

/-- `Init` from `k8forward.go`: run the session; report cancellation as
success, and invoke `CancelFn` (when supplied) on any other error. -/
def Init (s : Settings) (env : Env) : Settings × Option GoError × Trace :=
  match s.run env with
  | (s, some e, tr) =>
    if e.canceled then (s, none, tr)
    else if s.hasCancelFn then (s, some e, tr ++ [Event.cancelCalled])
    else (s, some e, tr)
  | (s, none, tr) => (s, none, tr)

/-- The specification wording of claim C7 for an acceptable `LocalAddress`:
splitting on `:` yields exactly two segments, the host segment is
non-empty, and the port segment is non-empty and an integer in
`[0, 65535]`.  Stated from the claim's words, to be compared with
`validateLocalAddress` from the source. -/
def specLocalAddressOK (addr : String) : Bool :=
  let parts := goSplit addr ':'
  parts.length == 2 && parts.getD 0 "" != "" && parts.getD 1 "" != "" &&
    (match atoi (parts.getD 1 "") with
     | some n => decide (0 ≤ n) && decide (n ≤ 65535)
     | none => false)

/-- A canonical decimal string: at least one digit, no sign, and no leading
zero except for `"0"` itself — exactly the strings `strconv.Itoa` can
produce for values in the TCP port range. -/
def canonicalDecimal (s : String) : Bool :=
  match s.toList with
  | [] => false
  | c :: cs => isDigitChar c && cs.all isDigitChar && (c != '0' || cs.isEmpty)

/-! ### Structural lemmas about the session functions -/

theorem prepare_trace (s : Settings) (env : Env) :
    (s.prepare env).2.2 = [Event.configLoaded] := by
  unfold Settings.prepare
  repeat' split
  all_goals rfl

theorem prepare_fields (s : Settings) (env : Env) :
    (s.prepare env).1.ContextName = s.ContextName ∧
    (s.prepare env).1.AppName = s.AppName ∧
    (s.prepare env).1.LocalAddress = s.LocalAddress ∧
    (s.prepare env).1.RemotePort = s.RemotePort ∧
    (s.prepare env).1.VersionName = s.VersionName ∧
    (s.prepare env).1.hasCancelFn = s.hasCancelFn ∧
    (s.prepare env).1.localHost = s.localHost ∧
    (s.prepare env).1.localPort = s.localPort := by
  unfold Settings.prepare
  repeat' split
  all_goals simp

theorem prepare_success_shape (s : Settings) (env : Env)
    (h : (s.prepare env).2.1 = none) :
    ∃ cfg k8sNamespace, env.loadResult = .ok cfg ∧
      cfg.lookupContext s.ContextName = some k8sNamespace ∧
      s.prepare env =
        ({ s with «namespace» := k8sNamespace, pfPodName := "placeholder",
                  validated := true }, none, [Event.configLoaded]) := by
  unfold Settings.prepare at h
  rcases hl : env.loadResult with e | cfg
  · simp [hl] at h
  · simp only [hl] at h
    rcases hk : cfg.lookupContext s.ContextName with _ | ns
    · simp [hk] at h
    · simp only [hk] at h
      rcases hcc : env.clientConfigErr with _ | e
      · simp only [hcc] at h
        rcases hnc : env.newForConfigErr with _ | e
        · simp only [hnc] at h
          rcases hrc : env.restClientForErr with _ | e
          · simp only [hrc] at h
            rcases hpv : env.pfValidateErr with _ | e
            · refine ⟨cfg, ns, rfl, hk, ?_⟩
              unfold Settings.prepare
              simp [hl, hk, hcc, hnc, hrc, hpv]
            · simp [hpv] at h
          · simp [hrc] at h
        · simp [hnc] at h
      · simp [hcc] at h

theorem prepare_validated (s : Settings) (env : Env)
    (h : (s.prepare env).2.1 = none) : (s.prepare env).1.validated = true := by
  obtain ⟨_, _, _, _, heq⟩ := prepare_success_shape s env h
  rw [heq]

theorem validateChecks_fields (s : Settings) :
    (validateChecks s).1.ContextName = s.ContextName ∧
    (validateChecks s).1.AppName = s.AppName ∧
    (validateChecks s).1.LocalAddress = s.LocalAddress ∧
    (validateChecks s).1.RemotePort = s.RemotePort ∧
    (validateChecks s).1.VersionName = s.VersionName ∧
    (validateChecks s).1.hasCancelFn = s.hasCancelFn ∧
    (validateChecks s).1.KubeconfigPath = s.KubeconfigPath ∧
    (validateChecks s).1.validated = s.validated := by
  unfold validateChecks
  rcases h1 : validateNonEmptyString "k8s context name" s.ContextName with _ | e
  · simp only [h1]
    rcases h2 : validateNonEmptyString "k8s app name" s.AppName with _ | e
    · simp only [h2]
      rcases h3 : validateLocalAddress s.LocalAddress with e | parts
      · simp [h3]
      · simp only [h3]
        rcases h4 : validateTCPPort "remote TCP port" s.RemotePort with _ | e
        · simp [h4]
        · simp [h4]
    · simp [h2]
  · simp [h1]

theorem resolveKubeconfigPath_ok_fields (s : Settings) (env : Env) (s1 : Settings)
    (h : resolveKubeconfigPath s env = .ok s1) :
    s1.ContextName = s.ContextName ∧
    s1.AppName = s.AppName ∧
    s1.LocalAddress = s.LocalAddress ∧
    s1.RemotePort = s.RemotePort ∧
    s1.VersionName = s.VersionName ∧
    s1.hasCancelFn = s.hasCancelFn ∧
    s1.localHost = s.localHost ∧
    s1.localPort = s.localPort ∧
    s1.validated = s.validated := by
  unfold resolveKubeconfigPath at h
  split at h
  · rcases hh : env.home with _ | homeDir
    · rw [hh] at h; simp at h
    · rw [hh] at h; simp at h; subst h; simp
  · simp at h; subst h; simp

theorem validate_trace (s : Settings) (env : Env) :
    (s.Validate env).2.2 = [] ∨ (s.Validate env).2.2 = [Event.configLoaded] := by
  unfold Settings.Validate
  cases hsv : s.validated
  · simp only [hsv, Bool.false_eq_true, if_false]
    rcases hc : validateChecks s with ⟨s1, r⟩
    cases r with
    | some e => exact Or.inl rfl
    | none =>
      rcases hr : resolveKubeconfigPath s1 env with e | s2
      · simp [hr]
      · simp [hr, prepare_trace]
  · simp [hsv]

theorem validate_fields (s : Settings) (env : Env) :
    (s.Validate env).1.ContextName = s.ContextName ∧
    (s.Validate env).1.AppName = s.AppName ∧
    (s.Validate env).1.LocalAddress = s.LocalAddress ∧
    (s.Validate env).1.RemotePort = s.RemotePort ∧
    (s.Validate env).1.VersionName = s.VersionName ∧
    (s.Validate env).1.hasCancelFn = s.hasCancelFn := by
  unfold Settings.Validate
  cases hsv : s.validated
  · simp only [hsv, Bool.false_eq_true, if_false]
    rcases hc : validateChecks s with ⟨s1, r⟩
    have hcf := validateChecks_fields s
    rw [hc] at hcf
    obtain ⟨f1, f2, f3, f4, f5, f6, f7, f8⟩ := hcf
    cases r with
    | some e => exact ⟨f1, f2, f3, f4, f5, f6⟩
    | none =>
      dsimp only
      rcases hr : resolveKubeconfigPath s1 env with e | s2
      · exact ⟨f1, f2, f3, f4, f5, f6⟩
      · obtain ⟨g1, g2, g3, g4, g5, g6, g7, g8, g9⟩ :=
          resolveKubeconfigPath_ok_fields s1 env s2 hr
        obtain ⟨p1, p2, p3, p4, p5, p6, p7, p8⟩ :=
          prepare_fields { s2 with hasOut := true, hasErrOut := true } env
        refine ⟨?_, ?_, ?_, ?_, ?_, ?_⟩ <;> simp_all
  · simp [hsv]

theorem validate_validated (s : Settings) (env : Env)
    (h : (s.Validate env).2.1 = none) : (s.Validate env).1.validated = true := by
  unfold Settings.Validate at h ⊢
  cases hsv : s.validated
  · simp only [hsv, Bool.false_eq_true, if_false] at h ⊢
    rcases hc : validateChecks s with ⟨s1, r⟩
    rw [hc] at h
    cases r with
    | some e => exact Option.noConfusion (show (some e : Option GoError) = none from h)
    | none =>
      dsimp only at h ⊢
      rcases hr : resolveKubeconfigPath s1 env with e | s2
      · rw [hr] at h
        exact Option.noConfusion (show (some e : Option GoError) = none from h)
      · rw [hr] at h
        exact prepare_validated _ env h
  · simp [hsv]

theorem validate_filter_wrote (s : Settings) (env : Env) :
    (s.Validate env).2.2.filter Event.isWrote = [] := by
  rcases validate_trace s env with h | h <;> simp [h, Event.isWrote]

theorem validate_filter_listed (s : Settings) (env : Env) :
    (s.Validate env).2.2.filter Event.isListed = [] := by
  rcases validate_trace s env with h | h <;> simp [h, Event.isListed]

theorem validate_not_mem (s : Settings) (env : Env) (ev : Event)
    (h : ev ≠ Event.configLoaded) : ev ∉ (s.Validate env).2.2 := by
  rcases validate_trace s env with ht | ht <;> simp [ht, h]

theorem run_no_cancel (s : Settings) (env : Env) :
    Event.cancelCalled ∉ (s.run env).2.2 := by
  have hmem := validate_not_mem s env Event.cancelCalled (by simp)
  unfold Settings.run
  rcases hv : s.Validate env with ⟨s1, r, tr1⟩
  rw [hv] at hmem
  cases r with
  | some e => exact hmem
  | none =>
    dsimp only
    rcases hl : env.listResult with e | pods
    · simp [hmem]
    · cases pods with
      | nil => simp [hmem]
      | cons p rest =>
        dsimp only
        rcases hf : env.fprintfErr with _ | e
        · rcases hfw : env.forwardResult with _ | e <;> simp [hmem]
        · simp [hmem]

theorem run_no_forward_of_list_error (s : Settings) (env : Env) (e : GoError)
    (hl : env.listResult = .error e) :
    Event.forwardStarted ∉ (s.run env).2.2 := by
  have hmem := validate_not_mem s env Event.forwardStarted (by simp)
  unfold Settings.run
  rcases hv : s.Validate env with ⟨s1, r, tr1⟩
  rw [hv] at hmem
  cases r with
  | some e2 => exact hmem
  | none =>
    dsimp only
    rw [hl]
    simp [hmem]

theorem run_hasCancelFn (s : Settings) (env : Env) :
    (s.run env).1.hasCancelFn = s.hasCancelFn := by
  have hf := (validate_fields s env).2.2.2.2.2
  unfold Settings.run
  rcases hv : s.Validate env with ⟨s1, r, tr1⟩
  rw [hv] at hf
  dsimp only at hf
  cases r with
  | some e => exact hf
  | none =>
    dsimp only
    rcases hl : env.listResult with e | pods
    · simp [hf]
    · cases pods with
      | nil => simp [hf]
      | cons p rest =>
        dsimp only
        rcases hfc : env.fprintfErr with _ | e
        · rcases hfw : env.forwardResult with _ | e <;> simp [hf]
        · simp [hf]

/-! ### The claims -/

/-- C2: if the supplied context is canceled while port-forwarding is in
progress — so the error returned by `run` satisfies
`errors.Is(err, context.Canceled)` — then `Init` returns a nil error and a
supplied `CancelFn` is not invoked. -/
theorem init_cancellation_is_success (s : Settings) (env : Env) (e : GoError)
    (hrun : (s.run env).2.1 = some e) (hcanc : e.canceled = true) :
    (Init s env).2.1 = none ∧
    (Init s env).2.2.count Event.cancelCalled = 0 := by
  have hnc := run_no_cancel s env
  unfold Init
  rcases hr : s.run env with ⟨s1, r, tr⟩
  rw [hr] at hrun hnc
  dsimp only at hrun
  subst hrun
  dsimp only
  rw [hcanc]
  exact ⟨rfl, List.count_eq_zero.mpr hnc⟩

/-- Closed witness for `init_cancellation_is_success`: cancellation
surfacing through the forwarding stage of a concrete session. -/
theorem init_cancellation_is_success_witness :
    (Init { ContextName := "dev", AppName := "billing",
            LocalAddress := "localhost:8080", RemotePort := "9090",
            hasCancelFn := true }
          { home := some "/root",
            loadResult := .ok ⟨[("dev", "billing-ns")]⟩,
            listResult := .ok ["billing-7f8c"],
            forwardResult := some ⟨"context canceled", true⟩ }).2.1 = none ∧
    (Init { ContextName := "dev", AppName := "billing",
            LocalAddress := "localhost:8080", RemotePort := "9090",
            hasCancelFn := true }
          { home := some "/root",
            loadResult := .ok ⟨[("dev", "billing-ns")]⟩,
            listResult := .ok ["billing-7f8c"],
            forwardResult := some ⟨"context canceled", true⟩ }).2.2.count
      Event.cancelCalled = 0 :=
  init_cancellation_is_success _ _
    ⟨"error port-forwarding from localhost:8080 to billing-7f8c:9090 on dev: context canceled",
     true⟩
    (by decide) (by decide)

/-- C3: on any non-cancellation failure, `Init` returns the stage-wrapped
error produced by `run`, invoking a supplied `CancelFn` exactly once (and
never invoking it when it was not supplied); `CancelFn` is also never
invoked when `Init` returns nil. -/
theorem init_failure_invokes_cancelFn (s : Settings) (env : Env) :
    (∀ e, (s.run env).2.1 = some e → e.canceled = false →
      (Init s env).2.1 = some e ∧
      (Init s env).2.2.count Event.cancelCalled =
        (if s.hasCancelFn then 1 else 0)) ∧
    ((Init s env).2.1 = none →
      (Init s env).2.2.count Event.cancelCalled = 0) := by
  have hnc := run_no_cancel s env
  have hcf := run_hasCancelFn s env
  unfold Init
  rcases hr : s.run env with ⟨s1, r, tr⟩
  rw [hr] at hnc hcf
  dsimp only at hnc hcf
  constructor
  · intro e hre hcanc
    dsimp only at hre
    subst hre
    dsimp only
    simp only [hcanc, Bool.false_eq_true, if_false]
    rw [hcf]
    cases hscf : s.hasCancelFn
    · simp [List.count_eq_zero.mpr hnc]
    · simp [List.count_append, List.count_eq_zero.mpr hnc]
  · intro hnil
    cases r with
    | none => exact List.count_eq_zero.mpr hnc
    | some e =>
      dsimp only at hnil ⊢
      cases hec : e.canceled
      · simp only [hec, Bool.false_eq_true, if_false] at hnil ⊢
        cases hscf : s1.hasCancelFn <;> simp [hscf] at hnil
      · simp [hec, List.count_eq_zero.mpr hnc]

/-- Closed witness for `init_failure_invokes_cancelFn`: a concrete failing
forward with a supplied `CancelFn` yields the wrapped error and one
`CancelFn` invocation. -/
theorem init_failure_invokes_cancelFn_witness :
    (Init { ContextName := "dev", AppName := "billing",
            LocalAddress := "localhost:8080", RemotePort := "9090",
            hasCancelFn := true }
          { home := some "/root",
            loadResult := .ok ⟨[("dev", "billing-ns")]⟩,
            listResult := .ok ["billing-7f8c"],
            forwardResult := some ⟨"boom", false⟩ }).2.1 =
        some ⟨"error port-forwarding from localhost:8080 to billing-7f8c:9090 on dev: boom",
              false⟩ ∧
    (Init { ContextName := "dev", AppName := "billing",
            LocalAddress := "localhost:8080", RemotePort := "9090",
            hasCancelFn := true }
          { home := some "/root",
            loadResult := .ok ⟨[("dev", "billing-ns")]⟩,
            listResult := .ok ["billing-7f8c"],
            forwardResult := some ⟨"boom", false⟩ }).2.2.count
      Event.cancelCalled = 1 := by
  have h := (init_failure_invokes_cancelFn
    { ContextName := "dev", AppName := "billing",
      LocalAddress := "localhost:8080", RemotePort := "9090", hasCancelFn := true }
    { home := some "/root",
      loadResult := .ok ⟨[("dev", "billing-ns")]⟩,
      listResult := .ok ["billing-7f8c"],
      forwardResult := some ⟨"boom", false⟩ }).1
    ⟨"error port-forwarding from localhost:8080 to billing-7f8c:9090 on dev: boom", false⟩
    (by decide) (by decide)
  simpa using h

/-- C10: a cancellation that surfaces through the pod-listing stage (the
listing fails with an error wrapping `context.Canceled`) also makes `Init`
report success without invoking `CancelFn`, even though no tunnel was ever
established. -/
theorem init_cancel_during_listing (s : Settings) (env : Env) (s1 : Settings)
    (tr1 : Trace) (e : GoError)
    (hv : s.Validate env = (s1, none, tr1))
    (hl : env.listResult = .error e) (hcanc : e.canceled = true) :
    (s.run env).2.1 = some (wrapf "error listing pods: " e) ∧
    (wrapf "error listing pods: " e).canceled = true ∧
    (Init s env).2.1 = none ∧
    (Init s env).2.2.count Event.cancelCalled = 0 ∧
    Event.forwardStarted ∉ (Init s env).2.2 := by
  have hrun : s.run env =
      (s1, some (wrapf "error listing pods: " e),
        tr1 ++ [Event.podsListed (labelSelectorOf s1) "status.phase=Running"]) := by
    unfold Settings.run
    rw [hv]
    dsimp only
    rw [hl]
  have hwc : (wrapf "error listing pods: " e).canceled = true := by
    simp [wrapf, hcanc]
  have hinit : Init s env =
      (s1, none, tr1 ++ [Event.podsListed (labelSelectorOf s1) "status.phase=Running"]) := by
    unfold Init
    rw [hrun]
    dsimp only
    simp [hwc]
  have hfs : Event.forwardStarted ∉
      tr1 ++ [Event.podsListed (labelSelectorOf s1) "status.phase=Running"] := by
    have hmem := validate_not_mem s env Event.forwardStarted (by simp)
    rw [hv] at hmem
    dsimp only at hmem
    simp [hmem]
  have hcc : Event.cancelCalled ∉
      tr1 ++ [Event.podsListed (labelSelectorOf s1) "status.phase=Running"] := by
    have hmem := validate_not_mem s env Event.cancelCalled (by simp)
    rw [hv] at hmem
    dsimp only at hmem
    simp [hmem]
  refine ⟨by rw [hrun], hwc, by rw [hinit], ?_, ?_⟩
  · rw [hinit]
    exact List.count_eq_zero.mpr hcc
  · rw [hinit]
    exact hfs

/-- Closed witness for `init_cancel_during_listing`: a session whose
listing call fails with a cancellation-wrapping error. -/
theorem init_cancel_during_listing_witness :
    (Init { ContextName := "dev", AppName := "billing",
            LocalAddress := "localhost:8080", RemotePort := "9090",
            hasCancelFn := true }
          { home := some "/root",
            loadResult := .ok ⟨[("dev", "billing-ns")]⟩,
            listResult := .error ⟨"context canceled", true⟩ }).2.1 = none ∧
    (Init { ContextName := "dev", AppName := "billing",
            LocalAddress := "localhost:8080", RemotePort := "9090",
            hasCancelFn := true }
          { home := some "/root",
            loadResult := .ok ⟨[("dev", "billing-ns")]⟩,
            listResult := .error ⟨"context canceled", true⟩ }).2.2.count
      Event.cancelCalled = 0 := by
  have h := init_cancel_during_listing
    { ContextName := "dev", AppName := "billing",
      LocalAddress := "localhost:8080", RemotePort := "9090", hasCancelFn := true }
    { home := some "/root",
      loadResult := .ok ⟨[("dev", "billing-ns")]⟩,
      listResult := .error ⟨"context canceled", true⟩ }
    { ContextName := "dev", AppName := "billing",
      LocalAddress := "localhost:8080", RemotePort := "9090", hasCancelFn := true,
      KubeconfigPath := "/root/.kube/config", hasOut := true, hasErrOut := true,
      localHost := "localhost", localPort := "8080", «namespace» := "billing-ns",
      pfPodName := "placeholder", validated := true }
    [Event.configLoaded] ⟨"context canceled", true⟩
    (by decide) (by decide) (by decide)
  exact ⟨h.2.2.1, h.2.2.2.1⟩

theorem validateNonEmptyString_none_iff (n v : String) :
    validateNonEmptyString n v = none ↔ v ≠ "" := by
  unfold validateNonEmptyString
  split <;> simp_all

theorem validateChecks_err_of_empty (s : Settings)
    (h : s.ContextName = "" ∨ s.AppName = "" ∨ s.LocalAddress = "" ∨
      s.RemotePort = "") :
    (validateChecks s).2 ≠ none := by
  unfold validateChecks
  rcases h1 : validateNonEmptyString "k8s context name" s.ContextName with _ | e
  · rcases h2 : validateNonEmptyString "k8s app name" s.AppName with _ | e
    · rcases h3 : validateLocalAddress s.LocalAddress with e | parts
      · simp
      · dsimp only
        rcases h4 : validateTCPPort "remote TCP port" s.RemotePort with _ | e
        · exfalso
          rcases h with hC | hA | hL | hR
          · exact (validateNonEmptyString_none_iff _ _ |>.mp h1) hC
          · exact (validateNonEmptyString_none_iff _ _ |>.mp h2) hA
          · rw [hL] at h3
            exact Except.noConfusion
              (show Except.error (errorf "local address must be a non-empty string") =
                Except.ok parts from h3)
          · rw [hR] at h4
            exact Option.noConfusion
              (show (some (errorf "remote TCP port must be a non-empty string") :
                Option GoError) = none from h4)
        · simp
    · simp
  · simp

/-- C9: a `Settings` value (not yet validated) with an empty `ContextName`,
`AppName`, `LocalAddress` or `RemotePort` makes `Validate` fail, with an
empty trace: no kubeconfig load and no cluster call is attempted, in
`Validate` or in the whole of `run`. -/
theorem validate_empty_field_fails (s : Settings) (env : Env)
    (hnv : s.validated = false)
    (h : s.ContextName = "" ∨ s.AppName = "" ∨ s.LocalAddress = "" ∨
      s.RemotePort = "") :
    (s.Validate env).2.1 ≠ none ∧ (s.Validate env).2.2 = [] ∧
    (s.run env).2.2 = [] := by
  have hne := validateChecks_err_of_empty s h
  rcases hc : validateChecks s with ⟨s1, r⟩
  rw [hc] at hne
  dsimp only at hne
  cases r with
  | none => exact absurd rfl hne
  | some e =>
    have hval : s.Validate env = (s1, some e, []) := by
      unfold Settings.Validate
      simp only [hnv, Bool.false_eq_true, if_false]
      rw [hc]
    refine ⟨by rw [hval]; simp, by rw [hval], ?_⟩
    unfold Settings.run
    rw [hval]

/-- Closed witness for `validate_empty_field_fails`: an empty remote port. -/
theorem validate_empty_field_fails_witness :
    (({ ContextName := "dev", AppName := "billing",
        LocalAddress := "localhost:8080", RemotePort := "" } : Settings).Validate
        { home := some "/root",
          loadResult := .ok ⟨[("dev", "billing-ns")]⟩,
          listResult := .ok ["billing-7f8c"] }).2.1 ≠ none ∧
    (({ ContextName := "dev", AppName := "billing",
        LocalAddress := "localhost:8080", RemotePort := "" } : Settings).Validate
        { home := some "/root",
          loadResult := .ok ⟨[("dev", "billing-ns")]⟩,
          listResult := .ok ["billing-7f8c"] }).2.2 = [] ∧
    (({ ContextName := "dev", AppName := "billing",
        LocalAddress := "localhost:8080", RemotePort := "" } : Settings).run
        { home := some "/root",
          loadResult := .ok ⟨[("dev", "billing-ns")]⟩,
          listResult := .ok ["billing-7f8c"] }).2.2 = [] :=
  validate_empty_field_fails _ _ (by decide) (by decide)

/-- C6: `Validate` is idempotent — after a first successful call, any later
call returns success immediately with an unchanged settings value and an
empty trace (no kubeconfig reload, no check re-run), whatever the
environment now looks like. -/
theorem validate_idempotent (s : Settings) (env env2 : Env) (s1 : Settings)
    (tr : Trace) (h : s.Validate env = (s1, none, tr)) :
    s1.Validate env2 = (s1, none, []) := by
  have hv := validate_validated s env (by rw [h])
  rw [h] at hv
  dsimp only at hv
  unfold Settings.Validate
  simp [hv]

/-- Closed witness for `validate_idempotent`: re-validating concrete
settings against a now-broken environment still succeeds as a no-op. -/
theorem validate_idempotent_witness :
    ({ ContextName := "dev", AppName := "billing",
       LocalAddress := "localhost:8080", RemotePort := "9090",
       KubeconfigPath := "/root/.kube/config", hasOut := true, hasErrOut := true,
       localHost := "localhost", localPort := "8080", «namespace» := "billing-ns",
       pfPodName := "placeholder", validated := true } : Settings).Validate
      { home := none, loadResult := .error (errorf "gone"),
        listResult := .error (errorf "gone") } =
    ({ ContextName := "dev", AppName := "billing",
       LocalAddress := "localhost:8080", RemotePort := "9090",
       KubeconfigPath := "/root/.kube/config", hasOut := true, hasErrOut := true,
       localHost := "localhost", localPort := "8080", «namespace» := "billing-ns",
       pfPodName := "placeholder", validated := true }, none, []) :=
  validate_idempotent
    { ContextName := "dev", AppName := "billing",
      LocalAddress := "localhost:8080", RemotePort := "9090" }
    { home := some "/root", loadResult := .ok ⟨[("dev", "billing-ns")]⟩,
      listResult := .ok ["billing-7f8c"] }
    { home := none, loadResult := .error (errorf "gone"),
      listResult := .error (errorf "gone") }
    _ [Event.configLoaded] (by decide)

theorem resolveKubeconfigPath_error_shape (s : Settings) (env : Env) (e : GoError)
    (h : resolveKubeconfigPath s env = .error e) :
    s.KubeconfigPath = "" ∧ env.home = none := by
  unfold resolveKubeconfigPath at h
  by_cases hkp : s.KubeconfigPath = ""
  · rw [if_pos hkp] at h
    rcases hh : env.home with _ | homeDir
    · exact ⟨hkp, rfl⟩
    · rw [hh] at h
      exact Except.noConfusion h
  · rw [if_neg hkp] at h
    exact Except.noConfusion h

theorem validateChecks_ok (s : Settings) (parts : List String)
    (h1 : validateNonEmptyString "k8s context name" s.ContextName = none)
    (h2 : validateNonEmptyString "k8s app name" s.AppName = none)
    (h3 : validateLocalAddress s.LocalAddress = .ok parts)
    (h4 : validateTCPPort "remote TCP port" s.RemotePort = none) :
    validateChecks s =
      ({ s with localHost := parts.getD 0 "", localPort := parts.getD 1 "" },
        none) := by
  unfold validateChecks
  rw [h1]
  dsimp only
  rw [h2]
  dsimp only
  rw [h3]
  dsimp only
  rw [h4]

/-- C5: when the four field checks pass and the kubeconfig loads but holds
no context named `ContextName`, `Validate` (and hence `run` and `Init`)
fails with the unknown-context error, and the session's whole trace is the
single kubeconfig load: no pod listing is ever attempted. -/
theorem validate_unknown_context (s : Settings) (env : Env) (cfg : ApiConfig)
    (parts : List String)
    (hnv : s.validated = false)
    (h1 : validateNonEmptyString "k8s context name" s.ContextName = none)
    (h2 : validateNonEmptyString "k8s app name" s.AppName = none)
    (h3 : validateLocalAddress s.LocalAddress = .ok parts)
    (h4 : validateTCPPort "remote TCP port" s.RemotePort = none)
    (hpath : s.KubeconfigPath ≠ "" ∨ env.home ≠ none)
    (hload : env.loadResult = .ok cfg)
    (hctx : cfg.lookupContext s.ContextName = none) :
    (s.Validate env).2.1 =
      some (errorf ("unknown k8s context \x27" ++ s.ContextName ++ "\x27")) ∧
    (s.run env).2.1 =
      some (errorf ("unknown k8s context \x27" ++ s.ContextName ++ "\x27")) ∧
    (Init s env).2.1 =
      some (errorf ("unknown k8s context \x27" ++ s.ContextName ++ "\x27")) ∧
    (s.run env).2.2 = [Event.configLoaded] := by
  have hchecks := validateChecks_ok s parts h1 h2 h3 h4
  rcases hres : resolveKubeconfigPath
      { s with localHost := parts.getD 0 "", localPort := parts.getD 1 "" } env
      with e | s2
  · exfalso
    obtain ⟨hk, hh⟩ := resolveKubeconfigPath_error_shape _ env e hres
    rcases hpath with hp | hp
    · exact hp hk
    · exact hp hh
  · have hs2 := resolveKubeconfigPath_ok_fields _ env s2 hres
    have hcn : s2.ContextName = s.ContextName := hs2.1
    have hctx2 : cfg.lookupContext s2.ContextName = none := by
      rw [hcn]
      exact hctx
    have hprep : ({ s2 with hasOut := true, hasErrOut := true } : Settings).prepare env =
        ({ s2 with hasOut := true, hasErrOut := true },
          some (errorf ("unknown k8s context \x27" ++ s.ContextName ++ "\x27")),
          [Event.configLoaded]) := by
      unfold Settings.prepare
      rw [hload]
      dsimp only
      rw [hctx2, hcn]
    have hval : s.Validate env =
        ({ s2 with hasOut := true, hasErrOut := true },
          some (errorf ("unknown k8s context \x27" ++ s.ContextName ++ "\x27")),
          [Event.configLoaded]) := by
      unfold Settings.Validate
      simp only [hnv, Bool.false_eq_true, if_false]
      rw [hchecks]
      dsimp only
      rw [hres]
      dsimp only
      exact hprep
    have hrun : s.run env =
        ({ s2 with hasOut := true, hasErrOut := true },
          some (errorf ("unknown k8s context \x27" ++ s.ContextName ++ "\x27")),
          [Event.configLoaded]) := by
      unfold Settings.run
      rw [hval]
    refine ⟨by rw [hval], by rw [hrun], ?_, by rw [hrun]⟩
    unfold Init
    rw [hrun]
    dsimp only
    cases hcf : ({ s2 with hasOut := true, hasErrOut := true } : Settings).hasCancelFn <;>
      simp [errorf, hcf]

/-- Closed witness for `validate_unknown_context`: a kubeconfig holding
only a `prod` context while `dev` is requested. -/
theorem validate_unknown_context_witness :
    (({ ContextName := "dev", AppName := "billing",
        LocalAddress := "localhost:8080", RemotePort := "9090" } : Settings).Validate
        { home := some "/root",
          loadResult := .ok ⟨[("prod", "prod-ns")]⟩,
          listResult := .ok ["billing-7f8c"] }).2.1 =
      some (errorf "unknown k8s context \x27dev\x27") ∧
    (({ ContextName := "dev", AppName := "billing",
        LocalAddress := "localhost:8080", RemotePort := "9090" } : Settings).run
        { home := some "/root",
          loadResult := .ok ⟨[("prod", "prod-ns")]⟩,
          listResult := .ok ["billing-7f8c"] }).2.2 = [Event.configLoaded] := by
  have h := validate_unknown_context
    { ContextName := "dev", AppName := "billing",
      LocalAddress := "localhost:8080", RemotePort := "9090" }
    { home := some "/root",
      loadResult := .ok ⟨[("prod", "prod-ns")]⟩,
      listResult := .ok ["billing-7f8c"] }
    ⟨[("prod", "prod-ns")]⟩ ["localhost", "8080"]
    (by decide) (by decide) (by decide) (by decide) (by decide)
    (Or.inr (by decide)) (by decide) (by decide)
  exact ⟨h.1, h.2.2.2⟩

/-- C1: when validation succeeds and the listing returns at least one pod,
`run` selects the first pod in listing order, and writes to `Out` exactly
one status line — `Starting port-forward from <LocalAddress> to
<podName>:<RemotePort> on <ContextName>` with that pod's name verbatim —
placed before the forwarder is started. -/
theorem run_picks_first_pod (s : Settings) (env : Env) (s1 : Settings)
    (tr1 : Trace) (p : String) (rest : List String)
    (hv : s.Validate env = (s1, none, tr1))
    (hl : env.listResult = .ok (p :: rest))
    (hf : env.fprintfErr = none) :
    (s.run env).1.pfPodName = p ∧
    (s.run env).2.2 =
      tr1 ++ [Event.podsListed (labelSelectorOf s1) "status.phase=Running",
              Event.wrote (statusLine s.LocalAddress p s.RemotePort s.ContextName),
              Event.forwardStarted] ∧
    tr1.filter Event.isWrote = [] := by
  obtain ⟨f1, f2, f3, f4, f5, f6⟩ := validate_fields s env
  rw [hv] at f1 f2 f3 f4 f5 f6
  dsimp only at f1 f2 f3 f4 f5 f6
  have hfil := validate_filter_wrote s env
  rw [hv] at hfil
  dsimp only at hfil
  have hline : statusLine s1.LocalAddress p s1.RemotePort s1.ContextName =
      statusLine s.LocalAddress p s.RemotePort s.ContextName := by
    rw [f3, f4, f1]
  rcases hfw : env.forwardResult with _ | e
  · have hrun : s.run env =
        ({ s1 with pfPodName := p }, none,
          (tr1 ++ [Event.podsListed (labelSelectorOf s1) "status.phase=Running"]) ++
            [Event.wrote (statusLine s1.LocalAddress p s1.RemotePort s1.ContextName),
             Event.forwardStarted]) := by
      unfold Settings.run
      rw [hv]
      dsimp only
      rw [hl]
      dsimp only
      rw [hf]
      dsimp only
      rw [hfw]
    refine ⟨by rw [hrun], ?_, hfil⟩
    rw [hrun]
    simp [hline]
  · have hrun : s.run env =
        ({ s1 with pfPodName := p },
          some (wrapf ("error port-forwarding from " ++ s1.LocalAddress ++ " to " ++
            p ++ ":" ++ s1.RemotePort ++ " on " ++ s1.ContextName ++ ": ") e),
          (tr1 ++ [Event.podsListed (labelSelectorOf s1) "status.phase=Running"]) ++
            [Event.wrote (statusLine s1.LocalAddress p s1.RemotePort s1.ContextName),
             Event.forwardStarted]) := by
      unfold Settings.run
      rw [hv]
      dsimp only
      rw [hl]
      dsimp only
      rw [hf]
      dsimp only
      rw [hfw]
    refine ⟨by rw [hrun], ?_, hfil⟩
    rw [hrun]
    simp [hline]

/-- Closed witness for `run_picks_first_pod`: two pods listed, the first
(`billing-7f8c`) is selected and announced. -/
theorem run_picks_first_pod_witness :
    (({ ContextName := "dev", AppName := "billing",
        LocalAddress := "localhost:8080", RemotePort := "9090" } : Settings).run
        { home := some "/root",
          loadResult := .ok ⟨[("dev", "billing-ns")]⟩,
          listResult := .ok ["billing-7f8c", "billing-9d2a"] }).1.pfPodName =
      "billing-7f8c" ∧
    (({ ContextName := "dev", AppName := "billing",
        LocalAddress := "localhost:8080", RemotePort := "9090" } : Settings).run
        { home := some "/root",
          loadResult := .ok ⟨[("dev", "billing-ns")]⟩,
          listResult := .ok ["billing-7f8c", "billing-9d2a"] }).2.2 =
      [Event.configLoaded,
       Event.podsListed "app=billing" "status.phase=Running",
       Event.wrote
         "Starting port-forward from localhost:8080 to billing-7f8c:9090 on dev\n",
       Event.forwardStarted] := by
  have h := run_picks_first_pod
    { ContextName := "dev", AppName := "billing",
      LocalAddress := "localhost:8080", RemotePort := "9090" }
    { home := some "/root",
      loadResult := .ok ⟨[("dev", "billing-ns")]⟩,
      listResult := .ok ["billing-7f8c", "billing-9d2a"] }
    { ContextName := "dev", AppName := "billing",
      LocalAddress := "localhost:8080", RemotePort := "9090",
      KubeconfigPath := "/root/.kube/config", hasOut := true, hasErrOut := true,
      localHost := "localhost", localPort := "8080", «namespace» := "billing-ns",
      pfPodName := "placeholder", validated := true }
    [Event.configLoaded] "billing-7f8c" ["billing-9d2a"]
    (by decide) (by decide) (by decide)
  exact ⟨h.1, by rw [h.2.1]; decide⟩

/-- C4: `run` lists pods with the label selector `app=<AppName>` (or
`app=<AppName>,version=<VersionName>` when a version is supplied) and the
`Running` phase filter, and a successful listing with zero pods fails with
the message naming the app (and version, if supplied) and the context. -/
theorem run_selector_and_no_pods (s : Settings) (env : Env) (s1 : Settings)
    (tr1 : Trace) (hv : s.Validate env = (s1, none, tr1)) :
    ((s.run env).2.2.filter Event.isListed =
      [Event.podsListed
        (if s.VersionName = "" then "app=" ++ s.AppName
         else "app=" ++ s.AppName ++ ",version=" ++ s.VersionName)
        "status.phase=Running"]) ∧
    (env.listResult = .ok [] →
      (s.run env).2.1 = some (errorf
        (if s.VersionName = "" then
          "no running pods found for app \x27" ++ s.AppName ++ "\x27 in \x27" ++
            s.ContextName ++ "\x27 context"
         else
          "no running pods found for app \x27" ++ s.AppName ++ "\x27 version \x27" ++
            s.VersionName ++ "\x27 in \x27" ++ s.ContextName ++ "\x27 context"))) := by
  obtain ⟨f1, f2, f3, f4, f5, f6⟩ := validate_fields s env
  rw [hv] at f1 f2 f3 f4 f5 f6
  dsimp only at f1 f2 f3 f4 f5 f6
  have hfil := validate_filter_listed s env
  rw [hv] at hfil
  dsimp only at hfil
  have hsel : labelSelectorOf s1 =
      (if s.VersionName = "" then "app=" ++ s.AppName
       else "app=" ++ s.AppName ++ ",version=" ++ s.VersionName) := by
    unfold labelSelectorOf
    rw [f5, f2]
  have hmsg : missingErrMsgOf s1 =
      (if s.VersionName = "" then
        "no running pods found for app \x27" ++ s.AppName ++ "\x27 in \x27" ++
          s.ContextName ++ "\x27 context"
       else
        "no running pods found for app \x27" ++ s.AppName ++ "\x27 version \x27" ++
          s.VersionName ++ "\x27 in \x27" ++ s.ContextName ++ "\x27 context") := by
    unfold missingErrMsgOf
    rw [f5, f2, f1]
  constructor
  · rcases hl : env.listResult with e | pods
    · have htr : (s.run env).2.2 =
          tr1 ++ [Event.podsListed (labelSelectorOf s1) "status.phase=Running"] := by
        unfold Settings.run
        rw [hv]
        dsimp only
        rw [hl]
      rw [htr, hsel]
      simp [hfil, Event.isListed]
    · cases pods with
      | nil =>
        have htr : (s.run env).2.2 =
            tr1 ++ [Event.podsListed (labelSelectorOf s1) "status.phase=Running"] := by
          unfold Settings.run
          rw [hv]
          dsimp only
          rw [hl]
        rw [htr, hsel]
        simp [hfil, Event.isListed]
      | cons p rest =>
        rcases hpr : env.fprintfErr with _ | e
        · rcases hfw : env.forwardResult with _ | e
          all_goals {
            have htr : (s.run env).2.2 =
                (tr1 ++ [Event.podsListed (labelSelectorOf s1) "status.phase=Running"]) ++
                  [Event.wrote (statusLine s1.LocalAddress p s1.RemotePort s1.ContextName),
                   Event.forwardStarted] := by
              unfold Settings.run
              rw [hv]
              dsimp only
              rw [hl]
              dsimp only
              rw [hpr]
              dsimp only
              rw [hfw]
            rw [htr, hsel]
            simp [hfil, Event.isListed]
          }
        · have htr : (s.run env).2.2 =
              tr1 ++ [Event.podsListed (labelSelectorOf s1) "status.phase=Running"] := by
            unfold Settings.run
            rw [hv]
            dsimp only
            rw [hl]
            dsimp only
            rw [hpr]
          rw [htr, hsel]
          simp [hfil, Event.isListed]
  · intro hl0
    have hrun : (s.run env).2.1 = some (errorf (missingErrMsgOf s1)) := by
      unfold Settings.run
      rw [hv]
      dsimp only
      rw [hl0]
    rw [hrun, hmsg]

/-- Closed witness for `run_selector_and_no_pods`: a version-qualified
selector and an empty listing. -/
theorem run_selector_and_no_pods_witness :
    (({ ContextName := "dev", AppName := "billing", VersionName := "v2",
        LocalAddress := "localhost:8080", RemotePort := "9090" } : Settings).run
        { home := some "/root",
          loadResult := .ok ⟨[("dev", "billing-ns")]⟩,
          listResult := .ok [] }).2.2.filter Event.isListed =
      [Event.podsListed "app=billing,version=v2" "status.phase=Running"] ∧
    (({ ContextName := "dev", AppName := "billing", VersionName := "v2",
        LocalAddress := "localhost:8080", RemotePort := "9090" } : Settings).run
        { home := some "/root",
          loadResult := .ok ⟨[("dev", "billing-ns")]⟩,
          listResult := .ok [] }).2.1 =
      some (errorf
        "no running pods found for app \x27billing\x27 version \x27v2\x27 in \x27dev\x27 context") := by
  have h := run_selector_and_no_pods
    { ContextName := "dev", AppName := "billing", VersionName := "v2",
      LocalAddress := "localhost:8080", RemotePort := "9090" }
    { home := some "/root",
      loadResult := .ok ⟨[("dev", "billing-ns")]⟩,
      listResult := .ok [] }
    { ContextName := "dev", AppName := "billing", VersionName := "v2",
      LocalAddress := "localhost:8080", RemotePort := "9090",
      KubeconfigPath := "/root/.kube/config", hasOut := true, hasErrOut := true,
      localHost := "localhost", localPort := "8080", «namespace» := "billing-ns",
      pfPodName := "placeholder", validated := true }
    [Event.configLoaded] (by decide)
  exact ⟨h.1, h.2 (by decide)⟩

/-! ### Decimal parsing and printing -/

theorem isDigitChar_bounds (c : Char) (h : isDigitChar c = true) :
    48 ≤ c.toNat ∧ c.toNat ≤ 57 := by
  simpa [isDigitChar, Bool.and_eq_true, decide_eq_true_eq] using h

theorem charVal_lt_ten (c : Char) (h : isDigitChar c = true) : charVal c < 10 := by
  obtain ⟨h1, h2⟩ := isDigitChar_bounds c h
  unfold charVal
  omega

theorem charVal_ne_zero (c : Char) (h : isDigitChar c = true) (hc : c ≠ '0') :
    charVal c ≠ 0 := by
  obtain ⟨h1, h2⟩ := isDigitChar_bounds c h
  intro h0
  have h48 : c.toNat = 48 := by
    unfold charVal at h0
    omega
  have hofn := (Char.ofNat_toNat c).symm
  rw [h48] at hofn
  exact hc (by rw [hofn])

theorem digitChar_charVal (c : Char) (h : isDigitChar c = true) :
    Nat.digitChar (charVal c) = c := by
  obtain ⟨h1, h2⟩ := isDigitChar_bounds c h
  have hofn := (Char.ofNat_toNat c).symm
  have hd : c.toNat = 48 ∨ c.toNat = 49 ∨ c.toNat = 50 ∨ c.toNat = 51 ∨
      c.toNat = 52 ∨ c.toNat = 53 ∨ c.toNat = 54 ∨ c.toNat = 55 ∨
      c.toNat = 56 ∨ c.toNat = 57 := by omega
  rcases hd with h0|h0|h0|h0|h0|h0|h0|h0|h0|h0 <;> rw [hofn, h0] <;> decide

theorem foldl_decVal_eq (cs : List Char) : ∀ a : Nat,
    cs.foldl (fun a c => a * 10 + charVal c) a =
      a * 10 ^ cs.length + Nat.ofDigits 10 (cs.map charVal).reverse := by
  induction cs with
  | nil => intro a; simp
  | cons c cs ih =>
    intro a
    simp only [List.foldl_cons, List.length_cons, List.map_cons, List.reverse_cons]
    rw [ih, Nat.ofDigits_append]
    simp only [Nat.ofDigits_singleton, List.length_reverse, List.length_map]
    ring

theorem decVal_eq_ofDigits (cs : List Char) :
    decVal cs = Nat.ofDigits 10 (cs.map charVal).reverse := by
  have h := foldl_decVal_eq cs 0
  simpa [decVal] using h

theorem toDigitsCore_eq_digits : ∀ (fuel n : Nat) (acc : List Char), n ≤ fuel →
    Nat.toDigitsCore 10 (fuel + 1) n acc =
      (if n = 0 then ['0']
       else (Nat.digits 10 n).reverse.map Nat.digitChar) ++ acc := by
  intro fuel
  induction fuel with
  | zero =>
    intro n acc h
    have hn : n = 0 := Nat.le_zero.mp h
    subst hn
    rfl
  | succ fuel ih =>
    intro n acc h
    show Nat.toDigitsCore 10 (fuel + 1 + 1) n acc = _
    rw [Nat.toDigitsCore]
    by_cases h0 : n / 10 = 0
    · rw [if_pos h0]
      by_cases hn : n = 0
      · subst hn
        rfl
      · rw [if_neg hn]
        have hlt : n < 10 := by omega
        rw [Nat.digits_of_lt 10 n hn hlt]
        have hmod : n % 10 = n := Nat.mod_eq_of_lt hlt
        simp [hmod]
    · rw [if_neg h0]
      have hle : n / 10 ≤ fuel := by omega
      rw [ih (n / 10) _ hle, if_neg h0]
      have hn : 0 < n := by omega
      rw [Nat.digits_def' (by norm_num : (1 : ℕ) < 10) hn,
        if_neg (by omega : ¬n = 0)]
      simp

theorem repr_eq_digits (n : Nat) :
    Nat.repr n =
      ((if n = 0 then ['0']
        else (Nat.digits 10 n).reverse.map Nat.digitChar)).asString := by
  unfold Nat.repr Nat.toDigits
  rw [toDigitsCore_eq_digits n n [] (le_refl n)]
  simp

theorem repr_decVal (cs : List Char) (hne : cs ≠ [])
    (hall : cs.all isDigitChar = true)
    (hcanon : cs.headD ' ' ≠ '0' ∨ cs = ['0']) :
    Nat.repr (decVal cs) = cs.asString := by
  rcases hcanon with hhd | h0
  · obtain ⟨c, cs2, rfl⟩ := List.exists_cons_of_ne_nil hne
    have hdig : ∀ x ∈ c :: cs2, isDigitChar x = true := by
      simpa [List.all_eq_true] using hall
    have hc0 : c ≠ '0' := by simpa using hhd
    have hlt : ∀ l ∈ ((c :: cs2).map charVal).reverse, l < 10 := by
      intro l hl
      simp only [List.mem_reverse, List.mem_map] at hl
      obtain ⟨x, hx, rfl⟩ := hl
      exact charVal_lt_ten x (hdig x hx)
    have hlast : ∀ h : ((c :: cs2).map charVal).reverse ≠ [],
        (((c :: cs2).map charVal).reverse).getLast h ≠ 0 := by
      intro h
      have h1 := List.getLast?_eq_getLast _ h
      rw [List.getLast?_reverse] at h1
      simp only [List.head?_map, List.head?_cons, Option.map_some] at h1
      have h2 : (((c :: cs2).map charVal).reverse).getLast h = charVal c :=
        Option.some.inj h1.symm
      rw [h2]
      exact charVal_ne_zero c (hdig c (by simp)) hc0
    have hofd : Nat.digits 10 (decVal (c :: cs2)) = ((c :: cs2).map charVal).reverse := by
      rw [decVal_eq_ofDigits]
      exact Nat.digits_ofDigits 10 (by norm_num) _ hlt hlast
    have hne0 : decVal (c :: cs2) ≠ 0 := by
      intro hz
      rw [hz] at hofd
      simp at hofd
    rw [repr_eq_digits, if_neg hne0, hofd]
    simp only [List.reverse_reverse, List.map_map]
    congr 1
    have : ∀ x ∈ c :: cs2, (Nat.digitChar ∘ charVal) x = id x := by
      intro x hx
      simp only [Function.comp_apply, id_eq]
      exact digitChar_charVal x (hdig x hx)
    rw [List.map_congr_left this, List.map_id]
  · subst h0
    rfl

theorem toList_asString (s : String) : s.toList.asString = s := rfl

theorem validateTCPPort_none_iff (n p : String) :
    validateTCPPort n p = none ↔
      ∃ v : Int, atoi p = some v ∧ 0 ≤ v ∧ v ≤ 65535 := by
  unfold validateTCPPort validateNonEmptyString
  by_cases hp : p = ""
  · subst hp
    constructor
    · intro hnone
      exact absurd (show (some (errorf (n ++ " must be a non-empty string")) :
        Option GoError) = none from hnone) (by simp)
    · rintro ⟨v, hv, -⟩
      exact absurd (show (none : Option Int) = some v from hv) (by simp)
  · rw [if_neg hp]
    dsimp only
    rcases ha : atoi p with _ | v
    · dsimp only
      constructor
      · intro hnone
        exact absurd hnone (by simp)
      · rintro ⟨v, hv, -⟩
        exact absurd hv (by simp)
    · dsimp only
      by_cases hr : 0 ≤ v ∧ v ≤ 65535
      · rw [if_pos hr]
        exact ⟨fun _ => ⟨v, rfl, hr.1, hr.2⟩, fun _ => rfl⟩
      · rw [if_neg hr]
        constructor
        · intro hnone
          exact absurd hnone (by simp)
        · rintro ⟨v2, hv2, hge, hle⟩
          cases hv2
          exact absurd ⟨hge, hle⟩ hr

theorem validateLocalAddress_ok_spec (a : String) (parts : List String)
    (h : validateLocalAddress a = .ok parts) :
    specLocalAddressOK a = true ∧ parts = goSplit a ':' := by
  unfold validateLocalAddress at h
  rcases hne : validateNonEmptyString "local address" a with _ | e
  · rw [hne] at h
    dsimp only at h
    by_cases hlen : (goSplit a ':').length = 2
    · rw [if_neg (not_not_intro hlen)] at h
      rcases hh : validateNonEmptyString "local host" ((goSplit a ':').getD 0 "")
          with _ | e
      · rw [hh] at h
        dsimp only at h
        rcases hpo : validateTCPPort "local port" ((goSplit a ':').getD 1 "")
            with _ | e
        · rw [hpo] at h
          dsimp only at h
          have hparts : parts = goSplit a ':' := by
            injection h with h2
            exact h2.symm
          refine ⟨?_, hparts⟩
          unfold specLocalAddressOK
          obtain ⟨v, hav, h0, h65⟩ := (validateTCPPort_none_iff _ _).mp hpo
          have hh2 : (goSplit a ':').getD 0 "" ≠ "" :=
            (validateNonEmptyString_none_iff _ _).mp hh
          have hp2 : (goSplit a ':').getD 1 "" ≠ "" := by
            intro hemp
            rw [hemp] at hav
            exact Option.noConfusion
              (show (none : Option Int) = some v from hav)
          dsimp only
          rw [hav]
          simp only [Bool.and_eq_true, beq_iff_eq, bne_iff_ne, decide_eq_true_eq]
          exact ⟨⟨⟨hlen, hh2⟩, hp2⟩, h0, h65⟩
        · rw [hpo] at h
          dsimp only at h
          exact Except.noConfusion h
      · rw [hh] at h
        dsimp only at h
        exact Except.noConfusion h
    · rw [if_pos hlen] at h
      exact Except.noConfusion h
  · rw [hne] at h
    dsimp only at h
    exact Except.noConfusion h

theorem validateChecks_none_shape (s : Settings)
    (h : (validateChecks s).2 = none) :
    ∃ parts, validateLocalAddress s.LocalAddress = .ok parts ∧
      validateChecks s =
        ({ s with localHost := parts.getD 0 "", localPort := parts.getD 1 "" },
          none) := by
  unfold validateChecks at h
  rcases h1 : validateNonEmptyString "k8s context name" s.ContextName with _ | e
  · rw [h1] at h
    dsimp only at h
    rcases h2 : validateNonEmptyString "k8s app name" s.AppName with _ | e
    · rw [h2] at h
      dsimp only at h
      rcases h3 : validateLocalAddress s.LocalAddress with e | parts
      · rw [h3] at h
        dsimp only at h
        exact absurd h (by simp)
      · rw [h3] at h
        dsimp only at h
        rcases h4 : validateTCPPort "remote TCP port" s.RemotePort with _ | e
        · exact ⟨parts, rfl, validateChecks_ok s parts h1 h2 h3 h4⟩
        · rw [h4] at h
          dsimp only at h
          exact Option.noConfusion h
    · rw [h2] at h
      dsimp only at h
      exact Option.noConfusion h
  · rw [h1] at h
    dsimp only at h
    exact Option.noConfusion h

theorem validate_success_localFields (s : Settings) (env : Env)
    (hnv : s.validated = false) (h : (s.Validate env).2.1 = none) :
    ∃ parts, validateLocalAddress s.LocalAddress = .ok parts ∧
      (s.Validate env).1.localHost = parts.getD 0 "" ∧
      (s.Validate env).1.localPort = parts.getD 1 "" := by
  unfold Settings.Validate at h ⊢
  simp only [hnv, Bool.false_eq_true, if_false] at h ⊢
  rcases hc : validateChecks s with ⟨s1, r⟩
  rw [hc] at h
  cases r with
  | some e => exact Option.noConfusion (show (some e : Option GoError) = none from h)
  | none =>
    obtain ⟨parts, hla, hcheq⟩ := validateChecks_none_shape s (by rw [hc])
    rw [hc] at hcheq
    have hs1 : s1 =
        { s with localHost := parts.getD 0 "", localPort := parts.getD 1 "" } :=
      congrArg Prod.fst hcheq
    dsimp only at h ⊢
    rcases hr : resolveKubeconfigPath s1 env with e | s2
    · rw [hr] at h
      exact Option.noConfusion (show (some e : Option GoError) = none from h)
    · rw [hr] at h
      obtain ⟨g1, g2, g3, g4, g5, g6, g7, g8, g9⟩ :=
        resolveKubeconfigPath_ok_fields s1 env s2 hr
      obtain ⟨cfg, ns2, _, _, heqp⟩ :=
        prepare_success_shape { s2 with hasOut := true, hasErrOut := true } env h
      refine ⟨parts, hla, ?_, ?_⟩
      · dsimp only
        rw [heqp]
        show s2.localHost = parts.getD 0 ""
        rw [g7, hs1]
      · dsimp only
        rw [heqp]
        show s2.localPort = parts.getD 1 ""
        rw [g8, hs1]

/-- C7: `Validate` (on a not-yet-validated `Settings`) fails whenever
`LocalAddress` is not exactly `host:port` in the claim's sense — splitting
on `:` must give exactly two segments, a non-empty host, and a non-empty
port that is an integer in `[0, 65535]` — and on success the derived
`localHost`/`localPort` fields are exactly the two colon-separated
segments. -/
theorem validate_localAddress_spec (s : Settings) (env : Env)
    (hnv : s.validated = false) :
    (specLocalAddressOK s.LocalAddress = false → (s.Validate env).2.1 ≠ none) ∧
    ((s.Validate env).2.1 = none →
      (s.Validate env).1.localHost = (goSplit s.LocalAddress ':').getD 0 "" ∧
      (s.Validate env).1.localPort = (goSplit s.LocalAddress ':').getD 1 "") := by
  constructor
  · intro hspec hsucc
    obtain ⟨parts, hla, -, -⟩ := validate_success_localFields s env hnv hsucc
    have hs := (validateLocalAddress_ok_spec _ _ hla).1
    rw [hspec] at hs
    exact Bool.noConfusion hs
  · intro hsucc
    obtain ⟨parts, hla, hH, hP⟩ := validate_success_localFields s env hnv hsucc
    have hparts := (validateLocalAddress_ok_spec _ _ hla).2
    rw [hparts] at hH hP
    exact ⟨hH, hP⟩

/-- Closed witness for `validate_localAddress_spec`: `"localhost"` (no
colon) is rejected, and `"localhost:8080"` decomposes into host
`localhost` and port `8080`. -/
theorem validate_localAddress_spec_witness :
    (({ ContextName := "dev", AppName := "billing",
        LocalAddress := "localhost", RemotePort := "9090" } : Settings).Validate
        { home := some "/root", loadResult := .ok ⟨[("dev", "billing-ns")]⟩,
          listResult := .ok [] }).2.1 ≠ none ∧
    (({ ContextName := "dev", AppName := "billing",
        LocalAddress := "localhost:8080", RemotePort := "9090" } : Settings).Validate
        { home := some "/root", loadResult := .ok ⟨[("dev", "billing-ns")]⟩,
          listResult := .ok [] }).1.localHost = "localhost" ∧
    (({ ContextName := "dev", AppName := "billing",
        LocalAddress := "localhost:8080", RemotePort := "9090" } : Settings).Validate
        { home := some "/root", loadResult := .ok ⟨[("dev", "billing-ns")]⟩,
          listResult := .ok [] }).1.localPort = "8080" := by
  refine ⟨(validate_localAddress_spec _ _ (by decide)).1 (by decide), ?_, ?_⟩
  · exact ((validate_localAddress_spec
      { ContextName := "dev", AppName := "billing",
        LocalAddress := "localhost:8080", RemotePort := "9090" }
      { home := some "/root", loadResult := .ok ⟨[("dev", "billing-ns")]⟩,
        listResult := .ok [] } (by decide)).2 (by decide)).1
  · exact ((validate_localAddress_spec
      { ContextName := "dev", AppName := "billing",
        LocalAddress := "localhost:8080", RemotePort := "9090" }
      { home := some "/root", loadResult := .ok ⟨[("dev", "billing-ns")]⟩,
        listResult := .ok [] } (by decide)).2 (by decide)).2

/-- C8 counterexample: `"007"` is accepted by port validation (it parses
to 7, in range), but converting the parsed value back to a string yields
`"7"`, not the original `"007"` — the claimed round-trip fails. -/
theorem validateTCPPort_roundtrip_counterexample :
    validateTCPPort "remote TCP port" "007" = none ∧
    atoi "007" = some 7 ∧ itoa 7 = "7" ∧ ("7" : String) ≠ "007" := by
  refine ⟨by decide, by decide, ?_, by decide⟩
  decide

/-- C8 (amended): port validation accepts exactly the strings
`strconv.Atoi` parses to an integer in `[0, 65535]`; and every accepted
string in canonical decimal form (digits only, no sign, no leading zero
except `"0"` itself) round-trips — its parsed value converts back to the
original string.  (Accepted strings with a sign or leading zeros, such as
`"007"`, do not round-trip.) -/
theorem validateTCPPort_spec (name s : String) :
    (validateTCPPort name s = none ↔
      ∃ v : Int, atoi s = some v ∧ 0 ≤ v ∧ v ≤ 65535) ∧
    (∀ v : Int, atoi s = some v → canonicalDecimal s = true → itoa v = s) := by
  refine ⟨validateTCPPort_none_iff name s, ?_⟩
  intro v hatoi hcanon
  unfold canonicalDecimal at hcanon
  unfold atoi at hatoi
  rcases hs : s.toList with _ | ⟨c, rest⟩
  · rw [hs] at hcanon
    exact Bool.noConfusion (show false = true from hcanon)
  · rw [hs] at hcanon hatoi
    dsimp only at hcanon hatoi
    simp only [Bool.and_eq_true] at hcanon
    obtain ⟨⟨hc, hrest⟩, hcz⟩ := hcanon
    have hplus : ¬(c = '+') := by
      intro hch
      subst hch
      exact absurd (isDigitChar_bounds _ hc).1 (by decide)
    have hminus : ¬(c = '-') := by
      intro hch
      subst hch
      exact absurd (isDigitChar_bounds _ hc).1 (by decide)
    rw [if_neg hplus, if_neg hminus] at hatoi
    have hall : (c :: rest).all isDigitChar = true := by
      simp [List.all_cons, hc, hrest]
    unfold parseDigits at hatoi
    rw [if_neg (by simp : ¬((c :: rest).isEmpty = true)), if_pos hall] at hatoi
    dsimp only [Option.bind] at hatoi
    by_cases hbound : decVal (c :: rest) ≤ maxInt64
    · rw [if_pos hbound] at hatoi
      injection hatoi with hv
      rw [← hv]
      unfold itoa
      rw [if_neg (by exact not_lt.mpr (Int.natCast_nonneg _))]
      rw [Int.natAbs_ofNat]
      have hcanon2 : (c :: rest).headD ' ' ≠ '0' ∨ (c :: rest) = ['0'] := by
        by_cases hc0 : c = '0'
        · right
          subst hc0
          have hre : rest = [] := by
            rcases (Bool.or_eq_true _ _).mp hcz with hb | hb
            · simp at hb
            · simpa using hb
          rw [hre]
        · left
          simpa using hc0
      have hrt := repr_decVal (c :: rest) (by simp) hall hcanon2
      rw [hrt, ← hs]
      exact toList_asString s
    · rw [if_neg hbound] at hatoi
      exact Option.noConfusion hatoi

/-- Closed witness for `validateTCPPort_spec`: `"9090"` is accepted and
round-trips through parsing. -/
theorem validateTCPPort_spec_witness :
    validateTCPPort "remote TCP port" "9090" = none ∧ itoa 9090 = "9090" := by
  have h := validateTCPPort_spec "remote TCP port" "9090"
  exact ⟨h.1.mpr ⟨9090, by decide, by decide, by decide⟩,
         h.2 9090 (by decide) (by decide)⟩

end K8sforward
